import Mathlib

/-!
Verification development for the Halloween Run simulation core
(src/main.py, class HalloweenCatGame with its reset/step API).

The shallow embedding below translates the simulation core of the game:
the per-frame step function, the reset function, the state vector builder
_get_game_state, obstacle spawning/movement and collision detection.

Modelling decisions:
* Python floats (game_speed, bg_scroll_x, rewards) are modelled as
  rationals; every float expression of the core is a short chain of
  additions/multiplications/divisions of small decimal constants, and no
  claim depends on binary rounding of those operations.
* pygame Rect is modelled as a record of integer x, y, w, h
  (left/top/width/height); right = x + w, bottom = y + h,
  centerx = x + w / 2 with integer division, exactly as pygame computes.
* Randomness (random.randint / random choices) is modelled by passing the
  drawn values explicitly: a Rand record per step call and a ResetRand per
  reset call, with a well-formedness predicate stating the randint bounds.
* Purely cosmetic state that no claim and no returned value depends on is
  omitted: sprite animation frames, parallax sky scrolls, stars, moon,
  left-edge decorations, obstacle kind/color, audio.  bg_scroll_x is kept
  because the step function updates it on surviving frames only.
* The highscore.txt file is modelled by the field saved : Option Nat
  holding the last value written by _save_high_score (none if the file was
  never written by this process).
* After __init__ the player group always holds exactly one Cat, so the
  defensive `cat is not None` branches of the source are always taken;
  the player is modelled as an always-present Rect.
-/

namespace HalloweenRun

/-- INTERNAL_W from src/main.py (internal surface width). -/
def INTERNAL_W : Int := 200

/-- INTERNAL_H from src/main.py (internal surface height). -/
def INTERNAL_H : Int := 150

/-- CAT_W from src/main.py. -/
def CAT_W : Int := 10

/-- CAT_H from src/main.py. -/
def CAT_H : Int := 10

/-- CAT_SPEED_PER_STEP from src/main.py. -/
def CAT_SPEED_PER_STEP : Int := 2

/-- OBSTACLE_MIN_W from src/main.py. -/
def OBSTACLE_MIN_W : Int := 8

/-- OBSTACLE_MAX_W from src/main.py. -/
def OBSTACLE_MAX_W : Int := 14

/-- OBSTACLE_MIN_H from src/main.py. -/
def OBSTACLE_MIN_H : Int := 8

/-- OBSTACLE_MAX_H from src/main.py. -/
def OBSTACLE_MAX_H : Int := 14

/-- OBSTACLE_BASE_SPEED = 1.2 from src/main.py. -/
def OBSTACLE_BASE_SPEED : ℚ := 6 / 5

/-- PATH_MARGIN_TOP from src/main.py. -/
def PATH_MARGIN_TOP : Int := 40

/-- PATH_MARGIN_BOTTOM from src/main.py. -/
def PATH_MARGIN_BOTTOM : Int := 10

/-- GAME_SPEED_MIN = 1.0 from src/main.py. -/
def GAME_SPEED_MIN : ℚ := 1

/-- GAME_SPEED_MAX = 3.0 from src/main.py. -/
def GAME_SPEED_MAX : ℚ := 3

/-- WORLD_SPEED_GROWTH = 0.001 from src/main.py. -/
def WORLD_SPEED_GROWTH : ℚ := 1 / 1000

/-- CAT_ACCEL_SPEED_X from src/main.py. -/
def CAT_ACCEL_SPEED_X : Int := 2

/-- CAT_DRIFT_SPEED_X from src/main.py. -/
def CAT_DRIFT_SPEED_X : Int := 1

/-- SURVIVE_REWARD = 0.1 from src/main.py. -/
def SURVIVE_REWARD : ℚ := 1 / 10

/-- CRASH_PENALTY = -100.0 from src/main.py. -/
def CRASH_PENALTY : ℚ := -100

/-- self._spawn_min = 45 set in HalloweenCatGame.__init__. -/
def SPAWN_MIN : Int := 45

/-- self._spawn_max = 110 set in HalloweenCatGame.__init__. -/
def SPAWN_MAX : Int := 110

/-- pygame.Rect: integer left/top/width/height. -/
structure Rect where
  x : Int
  y : Int
  w : Int
  h : Int
deriving DecidableEq, Repr

/-- pygame Rect.centerx: x + w // 2 (integer division). -/
def Rect.centerx (r : Rect) : Int := r.x + r.w / 2

/-- pygame Rect.centery: y + h // 2 (integer division). -/
def Rect.centery (r : Rect) : Int := r.y + r.h / 2

/-- pygame Rect.right. -/
def Rect.rightEdge (r : Rect) : Int := r.x + r.w

/-- pygame Rect.bottom. -/
def Rect.bottomEdge (r : Rect) : Int := r.y + r.h

/-- pygame colliderect on rects of positive size: strict overlap in both
axes (pygame _pg_do_rects_intersect, all widths/heights here positive). -/
def collideRect (a b : Rect) : Bool :=
  decide (a.x < b.x + b.w) && decide (a.y < b.y + b.h) &&
  decide (b.x < a.x + a.w) && decide (b.y < a.y + a.h)

/-- Python round() on a rational: round half to even, as applied by
Obstacle.update to the float dx = OBSTACLE_BASE_SPEED * game_speed. -/
def pyRound (q : ℚ) : Int :=
  let f := ⌊q⌋
  let r := q - (f : ℚ)
  if r < 1 / 2 then f
  else if 1 / 2 < r then f + 1
  else if f % 2 = 0 then f else f + 1

/-- The simulation state owned by HalloweenCatGame (cosmetic-only fields
omitted, see the header comment).  saved models the content last written
to highscore.txt by _save_high_score. -/
structure GameState where
  score : Nat
  game_over : Bool
  game_speed : ℚ
  bg_scroll_x : ℚ
  spawn_cooldown : Int
  player : Rect
  obstacles : List Rect
  high_score : Nat
  saved : Option Nat
deriving DecidableEq, Repr

/-- The random draws consumed by one step call, in source order:
spawn_y, the x offset of the spawn position, the width and height drawn by
Obstacle.__init__, and the cooldown base randint(_spawn_min, _spawn_max).
(The obstacle kind draw is cosmetic and omitted.) -/
structure Rand where
  spawnY : Int
  spawnXoff : Int
  obsW : Int
  obsH : Int
  cooldownBase : Int
deriving DecidableEq, Repr

/-- The randint bounds of the draws of one step call. -/
def Rand.wf (r : Rand) : Prop :=
  PATH_MARGIN_TOP ≤ r.spawnY ∧
  r.spawnY ≤ max PATH_MARGIN_TOP (INTERNAL_H - PATH_MARGIN_BOTTOM - OBSTACLE_MIN_H) ∧
  0 ≤ r.spawnXoff ∧ r.spawnXoff ≤ 20 ∧
  OBSTACLE_MIN_W ≤ r.obsW ∧ r.obsW ≤ OBSTACLE_MAX_W ∧
  OBSTACLE_MIN_H ≤ r.obsH ∧ r.obsH ≤ OBSTACLE_MAX_H ∧
  SPAWN_MIN ≤ r.cooldownBase ∧ r.cooldownBase ≤ SPAWN_MAX

instance (r : Rand) : Decidable r.wf := by
  unfold Rand.wf; infer_instance

/-- The random draw consumed by one reset call:
random.randint(self._spawn_min, self._spawn_max). -/
structure ResetRand where
  cooldown0 : Int
deriving DecidableEq, Repr

/-- The randint bounds of the reset draw. -/
def ResetRand.wf (r : ResetRand) : Prop :=
  SPAWN_MIN ≤ r.cooldown0 ∧ r.cooldown0 ≤ SPAWN_MAX

instance (r : ResetRand) : Decidable r.wf := by
  unfold ResetRand.wf; infer_instance

/-- The (state, reward, done) triple returned by step; the returned game
state vector is _get_game_state of the mutated state, i.e.
gameStateVec result.state. -/
structure StepResult where
  state : GameState
  reward : ℚ
  done : Bool
deriving DecidableEq, Repr

/-- Lines 444-455 of step: cat.drift_left() sets dx = -CAT_DRIFT_SPEED_X,
then action 1 sets dy = -CAT_SPEED_PER_STEP, action 2 sets
dy = CAT_SPEED_PER_STEP, action 3 overrides dx = CAT_ACCEL_SPEED_X; any
other action leaves only the drift.  Cat.update applies (dx, dy) once and
clears the deltas. -/
def catDelta (action : Int) : Int × Int :=
  if action = 1 then (-CAT_DRIFT_SPEED_X, -CAT_SPEED_PER_STEP)
  else if action = 2 then (-CAT_DRIFT_SPEED_X, CAT_SPEED_PER_STEP)
  else if action = 3 then (CAT_ACCEL_SPEED_X, 0)
  else (-CAT_DRIFT_SPEED_X, 0)

/-- Lines 462-475 of step: clamp left to 0, right to INTERNAL_W, then top
to the corridor top and bottom to the corridor bottom. -/
def clampCat (p : Rect) : Rect :=
  { p with
    x := if INTERNAL_W < (if p.x < 0 then 0 else p.x) + p.w
         then INTERNAL_W - p.w
         else if p.x < 0 then 0 else p.x,
    y := if INTERNAL_H - PATH_MARGIN_BOTTOM
            < (if p.y < PATH_MARGIN_TOP then PATH_MARGIN_TOP else p.y) + p.h
         then INTERNAL_H - PATH_MARGIN_BOTTOM - p.h
         else if p.y < PATH_MARGIN_TOP then PATH_MARGIN_TOP else p.y }

/-- The player rect after Cat.update and the bounds clamping of one step
call with the given action. -/
def movedCat (s : GameState) (action : Int) : Rect :=
  clampCat { s.player with
    y := s.player.y + (catDelta action).2,
    x := s.player.x + (catDelta action).1 }

/-- Line 405 of step: game_speed = min(GAME_SPEED_MAX, game_speed +
WORLD_SPEED_GROWTH). -/
def gsAfter (s : GameState) : ℚ :=
  min GAME_SPEED_MAX (s.game_speed + WORLD_SPEED_GROWTH)

/-- speed_norm = max(0, min(1, (gs - MIN) / (MAX - MIN))), lines 408-409
and 558-559. -/
def speedNorm (gs : ℚ) : ℚ :=
  max 0 (min 1 ((gs - GAME_SPEED_MIN) / (GAME_SPEED_MAX - GAME_SPEED_MIN)))

/-- The high-score bump `if score > high_score: high_score = score`. -/
def bumpHigh (score high : Nat) : Nat :=
  if high < score then score else high

/-- Obstacle.__init__ rect: topleft (spawn_x, spawn_y) with
spawn_x = INTERNAL_W + randint(0, 20), randomized width and height. -/
def spawnRect (r : Rand) : Rect :=
  { x := INTERNAL_W + r.spawnXoff, y := r.spawnY, w := r.obsW, h := r.obsH }

/-- Lines 489-501 of step: decrement the cooldown; when it is <= 0 add one
obstacle and set the cooldown to max(20, int(base / game_speed)); int()
truncation equals the floor here since base and game_speed are positive. -/
def spawnStep (obstacles : List Rect) (cooldown : Int) (gs : ℚ) (r : Rand) :
    List Rect × Int :=
  if cooldown - 1 ≤ 0 then
    (obstacles ++ [spawnRect r], max 20 ⌊(r.cooldownBase : ℚ) / gs⌋)
  else (obstacles, cooldown - 1)

/-- Obstacle.update: move left by int(round(OBSTACLE_BASE_SPEED * gs)) and
kill the sprite when its right edge has passed the left boundary. -/
def moveObstacle (gs : ℚ) (o : Rect) : Option Rect :=
  if o.x - pyRound (OBSTACLE_BASE_SPEED * gs) + o.w < 0 then none
  else some { o with x := o.x - pyRound (OBSTACLE_BASE_SPEED * gs) }

/-- Lines 489-505 of step: the obstacle group after the spawn block and
the update loop of one frame (the freshly spawned obstacle is already in
the group when the update loop runs). -/
def movedObstacles (s : GameState) (r : Rand) : List Rect :=
  (spawnStep s.obstacles s.spawn_cooldown (gsAfter s) r).1.filterMap
    (moveObstacle (gsAfter s))

/-- Lines 524-527 of step: bg_scroll_x += 0.2 * game_speed *
(1.0 + 1.0 * speed_norm), wrapped at INTERNAL_W. -/
def scrollAfter (s : GameState) : ℚ :=
  let v := s.bg_scroll_x + 1 / 5 * gsAfter s * (1 + 1 * speedNorm (gsAfter s))
  if (INTERNAL_W : ℚ) ≤ v then v - (INTERNAL_W : ℚ) else v

/-- HalloweenCatGame.step (lines 388-530), with r holding the random
draws of the frame.  The four outcomes of the source in order: already
over, left-edge crash, obstacle collision crash, survival. -/
def step (s : GameState) (action : Int) (r : Rand) : StepResult :=
  if s.game_over then
    { state := s, reward := 0, done := true }
  else if (movedCat s action).x ≤ 0 then
    { state := { s with
        game_speed := gsAfter s,
        player := movedCat s action,
        game_over := true,
        high_score := bumpHigh s.score s.high_score,
        saved := some (bumpHigh s.score s.high_score) },
      reward := CRASH_PENALTY, done := true }
  else if (movedObstacles s r).any (fun o => collideRect (movedCat s action) o) then
    { state := { s with
        game_speed := gsAfter s,
        player := movedCat s action,
        obstacles := movedObstacles s r,
        spawn_cooldown := (spawnStep s.obstacles s.spawn_cooldown (gsAfter s) r).2,
        game_over := true,
        high_score := bumpHigh s.score s.high_score,
        saved := some (bumpHigh s.score s.high_score) },
      reward := CRASH_PENALTY, done := true }
  else
    { state := { s with
        game_speed := gsAfter s,
        player := movedCat s action,
        obstacles := movedObstacles s r,
        spawn_cooldown := (spawnStep s.obstacles s.spawn_cooldown (gsAfter s) r).2,
        score := s.score + 1,
        high_score := bumpHigh (s.score + 1) s.high_score,
        bg_scroll_x := scrollAfter s },
      reward := SURVIVE_REWARD, done := false }

/-- HalloweenCatGame.reset (lines 302-386), simulation-relevant effects:
score, game_over, game_speed, bg_scroll_x, the cooldown draw, the sprite
groups and the player start position.  high_score and the persisted file
are untouched. -/
def reset (s : GameState) (r : ResetRand) : GameState :=
  { s with
    score := 0,
    game_over := false,
    game_speed := GAME_SPEED_MIN,
    bg_scroll_x := 0,
    spawn_cooldown := r.cooldown0,
    obstacles := [],
    player := { x := INTERNAL_W / 2 - CAT_W / 2, y := INTERNAL_H / 2 - CAT_H / 2,
                w := CAT_W, h := CAT_H } }

/-- Lines 548-552 of _get_game_state: the obstacles ahead of the player
(centerx >= cat centerx) and the one with minimal centerx among them
(Python min keeps the first minimal element). -/
def nearestAhead (cat : Rect) (obstacles : List Rect) : Option Rect :=
  match obstacles.filter (fun o => decide (cat.centerx ≤ o.centerx)) with
  | [] => none
  | o :: os =>
      some (os.foldl (fun b o2 => if o2.centerx < b.centerx then o2 else b) o)

/-- HalloweenCatGame._get_game_state (lines 532-561):
[player_y, dist_norm, next_obstacle_y, speed_norm]. -/
def gameStateVec (s : GameState) : List ℚ :=
  [ (s.player.y : ℚ) / (INTERNAL_H : ℚ),
    min 1 ((match nearestAhead s.player s.obstacles with
            | none => (INTERNAL_W : ℚ)
            | some nr => max 0 ((nr.x : ℚ) - (s.player.rightEdge : ℚ)))
           / (INTERNAL_W : ℚ)),
    (match nearestAhead s.player s.obstacles with
     | none => (0 : ℚ)
     | some nr => (nr.y : ℚ) / (INTERNAL_H : ℚ)),
    speedNorm s.game_speed ]

/-- The list returned by reset: `return self._get_game_state()`. -/
def resetReturn (s : GameState) (r : ResetRand) : List ℚ :=
  gameStateVec (reset s r)

/-- Iterated step calls with the given actions and draws, for the
temporal claims. -/
def runSteps (s : GameState) : List (Int × Rand) → GameState
  | [] => s
  | p :: rest => runSteps (step s p.1 p.2).state rest

/-- Iterated no-op step calls with draws supplied by rands. -/
def noopIter (rands : Nat → Rand) (s : GameState) : Nat → GameState
  | 0 => s
  | k + 1 => (step (noopIter rands s k) 0 (rands k)).state

/-- The states an external caller can observe: any reset result, closed
under step calls with in-range random draws.  (__init__ ends by calling
reset, so the very first observable state is a reset state.) -/
inductive Reachable : GameState → Prop
  | reset (s : GameState) (r : ResetRand) (h : r.wf) : Reachable (reset s r)
  | step (s : GameState) (a : Int) (r : Rand) (hs : Reachable s) (h : r.wf) :
      Reachable (step s a r).state

/-- The state invariant maintained by reset and step: speed bounds, the
player rect inside the screen and the vertical corridor, and every live
obstacle with in-range size and vertical position. -/
def Inv (s : GameState) : Prop :=
  GAME_SPEED_MIN ≤ s.game_speed ∧ s.game_speed ≤ GAME_SPEED_MAX ∧
  s.player.w = CAT_W ∧ s.player.h = CAT_H ∧
  0 ≤ s.player.x ∧ s.player.x ≤ INTERNAL_W - CAT_W ∧
  PATH_MARGIN_TOP ≤ s.player.y ∧
  s.player.y ≤ INTERNAL_H - PATH_MARGIN_BOTTOM - CAT_H ∧
  ∀ o ∈ s.obstacles,
    PATH_MARGIN_TOP ≤ o.y ∧
    o.y ≤ INTERNAL_H - PATH_MARGIN_BOTTOM - OBSTACLE_MIN_H ∧
    OBSTACLE_MIN_W ≤ o.w ∧ o.w ≤ OBSTACLE_MAX_W ∧
    OBSTACLE_MIN_H ≤ o.h ∧ o.h ≤ OBSTACLE_MAX_H

theorem gsAfter_le_max (s : GameState) : gsAfter s ≤ GAME_SPEED_MAX :=
  min_le_left _ _

theorem gsAfter_ge_min (s : GameState) (h : GAME_SPEED_MIN ≤ s.game_speed) :
    GAME_SPEED_MIN ≤ gsAfter s := by
  refine le_min (by norm_num [GAME_SPEED_MIN, GAME_SPEED_MAX]) ?_
  have : (0 : ℚ) < WORLD_SPEED_GROWTH := by norm_num [WORLD_SPEED_GROWTH]
  linarith

theorem gsAfter_mono (s : GameState) (h : s.game_speed ≤ GAME_SPEED_MAX) :
    s.game_speed ≤ gsAfter s := by
  refine le_min h ?_
  have : (0 : ℚ) < WORLD_SPEED_GROWTH := by norm_num [WORLD_SPEED_GROWTH]
  linarith

theorem clampCat_spec (p : Rect) (hw : p.w = CAT_W) (hh : p.h = CAT_H) :
    (clampCat p).w = CAT_W ∧ (clampCat p).h = CAT_H ∧
    0 ≤ (clampCat p).x ∧ (clampCat p).x ≤ INTERNAL_W - CAT_W ∧
    PATH_MARGIN_TOP ≤ (clampCat p).y ∧
    (clampCat p).y ≤ INTERNAL_H - PATH_MARGIN_BOTTOM - CAT_H := by
  simp only [clampCat, hw, hh, CAT_W, CAT_H, INTERNAL_W, INTERNAL_H,
    PATH_MARGIN_TOP, PATH_MARGIN_BOTTOM]
  refine ⟨trivial, trivial, ?_, ?_, ?_, ?_⟩ <;> split_ifs <;> omega

theorem movedCat_spec (s : GameState) (a : Int)
    (hw : s.player.w = CAT_W) (hh : s.player.h = CAT_H) :
    (movedCat s a).w = CAT_W ∧ (movedCat s a).h = CAT_H ∧
    0 ≤ (movedCat s a).x ∧ (movedCat s a).x ≤ INTERNAL_W - CAT_W ∧
    PATH_MARGIN_TOP ≤ (movedCat s a).y ∧
    (movedCat s a).y ≤ INTERNAL_H - PATH_MARGIN_BOTTOM - CAT_H := by
  exact clampCat_spec _ hw hh

theorem moveObstacle_fields (gs : ℚ) (o o2 : Rect)
    (h : moveObstacle gs o = some o2) :
    o2.y = o.y ∧ o2.w = o.w ∧ o2.h = o.h := by
  unfold moveObstacle at h
  split at h
  · exact absurd h (by simp)
  · cases h
    exact ⟨rfl, rfl, rfl⟩

theorem movedObstacles_mem (s : GameState) (r : Rand) (hr : r.wf)
    (hobs : ∀ o ∈ s.obstacles,
      PATH_MARGIN_TOP ≤ o.y ∧
      o.y ≤ INTERNAL_H - PATH_MARGIN_BOTTOM - OBSTACLE_MIN_H ∧
      OBSTACLE_MIN_W ≤ o.w ∧ o.w ≤ OBSTACLE_MAX_W ∧
      OBSTACLE_MIN_H ≤ o.h ∧ o.h ≤ OBSTACLE_MAX_H) :
    ∀ o ∈ movedObstacles s r,
      PATH_MARGIN_TOP ≤ o.y ∧
      o.y ≤ INTERNAL_H - PATH_MARGIN_BOTTOM - OBSTACLE_MIN_H ∧
      OBSTACLE_MIN_W ≤ o.w ∧ o.w ≤ OBSTACLE_MAX_W ∧
      OBSTACLE_MIN_H ≤ o.h ∧ o.h ≤ OBSTACLE_MAX_H := by
  intro o ho
  unfold movedObstacles at ho
  rcases List.mem_filterMap.mp ho with ⟨o0, ho0, hmv⟩
  have hfields := moveObstacle_fields _ _ _ hmv
  have ho0src :
      PATH_MARGIN_TOP ≤ o0.y ∧
      o0.y ≤ INTERNAL_H - PATH_MARGIN_BOTTOM - OBSTACLE_MIN_H ∧
      OBSTACLE_MIN_W ≤ o0.w ∧ o0.w ≤ OBSTACLE_MAX_W ∧
      OBSTACLE_MIN_H ≤ o0.h ∧ o0.h ≤ OBSTACLE_MAX_H := by
    unfold spawnStep at ho0
    split at ho0
    · rcases List.mem_append.mp ho0 with hin | hnew
      · exact hobs _ hin
      · have : o0 = spawnRect r := by simpa using hnew
        subst this
        rcases hr with ⟨h1, h2, h3, h4, h5, h6, h7, h8, h9, h10⟩
        refine ⟨h1, ?_, h5, h6, h7, h8⟩
        simpa [PATH_MARGIN_TOP, INTERNAL_H, PATH_MARGIN_BOTTOM,
          OBSTACLE_MIN_H, spawnRect] using h2
    · exact hobs _ ho0
  rcases hfields with ⟨fy, fw, fh⟩
  rw [fy, fw, fh]
  exact ho0src

theorem inv_reset (s : GameState) (r : ResetRand) : Inv (reset s r) := by
  unfold Inv reset
  norm_num [GAME_SPEED_MIN, GAME_SPEED_MAX, CAT_W, CAT_H, INTERNAL_W,
    INTERNAL_H, PATH_MARGIN_TOP, PATH_MARGIN_BOTTOM]

theorem inv_step (s : GameState) (a : Int) (r : Rand)
    (hI : Inv s) (hr : r.wf) : Inv (step s a r).state := by
  rcases hI with ⟨h1, h2, h3, h4, h5, h6, h7, h8, h9⟩
  have hcat := movedCat_spec s a h3 h4
  have hobs := movedObstacles_mem s r hr h9
  unfold step
  split
  · exact ⟨h1, h2, h3, h4, h5, h6, h7, h8, h9⟩
  · split
    · exact ⟨gsAfter_ge_min s h1, gsAfter_le_max s, hcat.1, hcat.2.1,
        hcat.2.2.1, hcat.2.2.2.1, hcat.2.2.2.2.1, hcat.2.2.2.2.2, h9⟩
    · split
      · exact ⟨gsAfter_ge_min s h1, gsAfter_le_max s, hcat.1, hcat.2.1,
          hcat.2.2.1, hcat.2.2.2.1, hcat.2.2.2.2.1, hcat.2.2.2.2.2, hobs⟩
      · exact ⟨gsAfter_ge_min s h1, gsAfter_le_max s, hcat.1, hcat.2.1,
          hcat.2.2.1, hcat.2.2.2.1, hcat.2.2.2.2.1, hcat.2.2.2.2.2, hobs⟩

theorem reachable_inv (s : GameState) (h : Reachable s) : Inv s := by
  induction h with
  | reset s r hr => exact inv_reset s r
  | step s a r hs hr ih => exact inv_step s a r ih hr

/-- The element picked by the Python min over a nonempty list is one of
its elements. -/
theorem foldl_pick_mem (os : List Rect) : ∀ o : Rect,
    os.foldl (fun b o2 => if o2.centerx < b.centerx then o2 else b) o ∈ o :: os := by
  induction os with
  | nil => intro o; simp
  | cons p os ih =>
    intro o
    simp only [List.foldl_cons]
    rcases List.mem_cons.mp (ih (if p.centerx < o.centerx then p else o)) with h | h
    · rw [h]
      split_ifs <;> simp
    · exact List.mem_cons_of_mem _ (List.mem_cons_of_mem _ h)

/-- The nearest obstacle ahead is a live obstacle. -/
theorem nearestAhead_mem (cat : Rect) (l : List Rect) (nr : Rect)
    (h : nearestAhead cat l = some nr) : nr ∈ l := by
  unfold nearestAhead at h
  rcases hfl : l.filter (fun o => decide (cat.centerx ≤ o.centerx)) with _ | ⟨o, os⟩
  · rw [hfl] at h; cases h
  · rw [hfl] at h
    have hnr : nr ∈ o :: os := by
      cases h
      exact foldl_pick_mem os o
    have : nr ∈ l.filter (fun o => decide (cat.centerx ≤ o.centerx)) := by
      rw [hfl]; exact hnr
    exact List.mem_of_mem_filter this

/-- A generic running state used to instantiate the claim theorems: the
state right after the first reset with cooldown draw 50. -/
def baseState : GameState :=
  { score := 0, game_over := false, game_speed := 1, bg_scroll_x := 0,
    spawn_cooldown := 50, player := { x := 95, y := 70, w := 10, h := 10 },
    obstacles := [], high_score := 0, saved := none }

/-- A generic in-range draw for one step call. -/
def rand0 : Rand :=
  { spawnY := 70, spawnXoff := 0, obsW := 8, obsH := 8, cooldownBase := 45 }

/-- A generic in-range draw for one reset call. -/
def resetRand0 : ResetRand := { cooldown0 := 50 }

/-- A terminal state: baseState after game over. -/
def overState : GameState := { baseState with game_over := true }

/-- C1: once step has returned done=true, every subsequent step call with
any action and any draws (without an intervening reset) leaves the state
unchanged and returns the same terminal state vector, reward exactly 0,
and done=true; game_over stays true however many such calls are made. -/
theorem claim1_done_absorbing (s : GameState) (h : s.game_over = true) :
    (∀ (a : Int) (r : Rand),
      step s a r = { state := s, reward := 0, done := true } ∧
      gameStateVec (step s a r).state = gameStateVec s) ∧
    (∀ l : List (Int × Rand),
      runSteps s l = s ∧ (runSteps s l).game_over = true) := by
  have hstep : ∀ (a : Int) (r : Rand),
      step s a r = { state := s, reward := 0, done := true } := by
    intro a r
    unfold step
    rw [if_pos h]
  have hrun : ∀ l : List (Int × Rand), runSteps s l = s := by
    intro l
    induction l with
    | nil => rfl
    | cons p rest ih =>
      show runSteps (step s p.1 p.2).state rest = s
      rw [hstep p.1 p.2]
      exact ih
  exact ⟨fun a r => ⟨hstep a r, by rw [hstep a r]⟩,
    fun l => ⟨hrun l, by rw [hrun l]; exact h⟩⟩

/-- Witness for C1 at a concrete terminal state. -/
theorem claim1_witness :
    step overState 0 rand0 = { state := overState, reward := 0, done := true } :=
  ((claim1_done_absorbing overState rfl).1 0 rand0).1

/-- C2: a step call from a running state returns exactly the survival
reward 0.1 with done=false, or exactly the crash penalty -100 with
done=true; no other reward value is possible. -/
theorem claim2_reward_dichotomy (s : GameState) (a : Int) (r : Rand)
    (h : s.game_over = false) :
    ((step s a r).reward = SURVIVE_REWARD ∧ (step s a r).done = false) ∨
    ((step s a r).reward = CRASH_PENALTY ∧ (step s a r).done = true) := by
  unfold step
  rw [if_neg (by simp [h])]
  split
  · exact Or.inr ⟨rfl, rfl⟩
  · split
    · exact Or.inr ⟨rfl, rfl⟩
    · exact Or.inl ⟨rfl, rfl⟩

/-- Witness for C2 at a concrete running state. -/
theorem claim2_witness :
    ((step baseState 0 rand0).reward = SURVIVE_REWARD ∧
      (step baseState 0 rand0).done = false) ∨
    ((step baseState 0 rand0).reward = CRASH_PENALTY ∧
      (step baseState 0 rand0).done = true) :=
  claim2_reward_dichotomy baseState 0 rand0 rfl

/-- C3: in every reachable state game_speed lies in
[GAME_SPEED_MIN, GAME_SPEED_MAX], and any step call from that state can
only keep it equal or increase it (reset starts a new episode and is the
only call that lowers it). -/
theorem claim3_speed_bounds (s : GameState) (h : Reachable s) :
    (GAME_SPEED_MIN ≤ s.game_speed ∧ s.game_speed ≤ GAME_SPEED_MAX) ∧
    ∀ (a : Int) (r : Rand), s.game_speed ≤ (step s a r).state.game_speed := by
  obtain ⟨h1, h2, -⟩ := reachable_inv s h
  refine ⟨⟨h1, h2⟩, ?_⟩
  intro a r
  unfold step
  split
  · exact le_rfl
  · split
    · exact gsAfter_mono s h2
    · split
      · exact gsAfter_mono s h2
      · exact gsAfter_mono s h2

/-- Witness for C3 at a concrete reachable state. -/
theorem claim3_witness :
    GAME_SPEED_MIN ≤ (reset baseState resetRand0).game_speed ∧
    (reset baseState resetRand0).game_speed ≤ GAME_SPEED_MAX :=
  (claim3_speed_bounds _ (Reachable.reset baseState resetRand0 (by decide))).1

/-- C4: every component of the state vector of a reachable state lies in
[0, 1]; player_y and next_obstacle_y are within bounds because the player
and every obstacle stay inside vertical ranges strictly inside the
internal surface, with no clamping in _get_game_state itself. -/
theorem claim4_state_vec_normalized (s : GameState) (h : Reachable s) :
    ∀ q ∈ gameStateVec s, 0 ≤ q ∧ q ≤ 1 := by
  obtain ⟨-, -, -, -, -, -, h7, h8, h9⟩ := reachable_inv s h
  have hy1 : (40 : Int) ≤ s.player.y := by
    simpa [PATH_MARGIN_TOP] using h7
  have hy2 : s.player.y ≤ 130 := by
    have := h8
    simp only [INTERNAL_H, PATH_MARGIN_BOTTOM, CAT_H] at this
    omega
  intro q hq
  simp only [gameStateVec, List.mem_cons, List.not_mem_nil, or_false] at hq
  rcases hq with hq | hq | hq | hq
  · subst hq
    constructor
    · apply div_nonneg
      · exact_mod_cast (by omega : (0 : Int) ≤ s.player.y)
      · norm_num [INTERNAL_H]
    · rw [div_le_one (by norm_num [INTERNAL_H])]
      have : ((s.player.y : ℚ)) ≤ 130 := by exact_mod_cast hy2
      norm_num [INTERNAL_H]
      linarith
  · subst hq
    constructor
    · rcases hna : nearestAhead s.player s.obstacles with _ | nr
      · simp only [hna]
        apply le_min (by norm_num)
        apply div_nonneg (by norm_num [INTERNAL_W]) (by norm_num [INTERNAL_W])
      · simp only [hna]
        apply le_min (by norm_num)
        apply div_nonneg (le_max_left _ _) (by norm_num [INTERNAL_W])
    · exact min_le_left _ _
  · rcases hna : nearestAhead s.player s.obstacles with _ | nr
    · simp only [hna] at hq
      subst hq
      exact ⟨le_rfl, by norm_num⟩
    · simp only [hna] at hq
      subst hq
      have hmem := nearestAhead_mem _ _ _ hna
      obtain ⟨ho1, ho2, -⟩ := h9 _ hmem
      have hb1 : (40 : Int) ≤ nr.y := by simpa [PATH_MARGIN_TOP] using ho1
      have hb2 : nr.y ≤ 132 := by
        have := ho2
        simp only [INTERNAL_H, PATH_MARGIN_BOTTOM, OBSTACLE_MIN_H] at this
        omega
      constructor
      · apply div_nonneg
        · exact_mod_cast (by omega : (0 : Int) ≤ nr.y)
        · norm_num [INTERNAL_H]
      · rw [div_le_one (by norm_num [INTERNAL_H])]
        have : ((nr.y : ℚ)) ≤ 132 := by exact_mod_cast hb2
        norm_num [INTERNAL_H]
        linarith
  · subst hq
    exact ⟨le_max_left _ _, max_le (by norm_num) (min_le_left _ _)⟩

/-- Witness for C4: the first state vector component of a concrete
reachable state. -/
theorem claim4_witness : 0 ≤ (7 / 15 : ℚ) ∧ (7 / 15 : ℚ) ≤ 1 :=
  claim4_state_vec_normalized _ (Reachable.reset baseState resetRand0 (by decide))
    (7 / 15)
    (by norm_num [gameStateVec, reset, nearestAhead, baseState, resetRand0,
      speedNorm, INTERNAL_W, INTERNAL_H, CAT_W, CAT_H,
      GAME_SPEED_MIN, GAME_SPEED_MAX])

theorem bumpHigh_eq_max (a b : Nat) : bumpHigh a b = max b a := by
  unfold bumpHigh
  split <;> omega

/-- A running state whose score 5 already exceeds the stored high score 3,
with the persisted file holding 3. -/
def hiState : GameState :=
  { score := 5, game_over := false, game_speed := 1, bg_scroll_x := 0,
    spawn_cooldown := 50, player := { x := 95, y := 70, w := 10, h := 10 },
    obstacles := [], high_score := 3, saved := some 3 }

/-- Counterexample to C5 as stated: on this surviving step the score (6)
exceeds the stored high score (3) and the in-memory high score is updated
to 6, yet the persisted file still holds 3 — _save_high_score runs only on
crash frames, so the file is not overwritten on that same step. -/
theorem claim5_counterexample :
    hiState.high_score < (step hiState 0 rand0).state.score ∧
    (step hiState 0 rand0).state.high_score = 6 ∧
    (step hiState 0 rand0).state.saved = some 3 := by
  refine ⟨?_, ?_, ?_⟩ <;> decide

/-- C5 amended: whenever the current score exceeds the stored high score,
the in-memory high score is updated to the score on that same step (on
any step the new high score is the max of the old one and the new score);
the persisted file is rewritten only on the step that ends the episode,
and then with the just-updated high score; reset never clears or lowers
the high score or the file. -/
theorem claim5_high_score_amended (s : GameState) (a : Int) (r : Rand)
    (h : s.game_over = false) :
    (step s a r).state.high_score = max s.high_score (step s a r).state.score ∧
    ((step s a r).done = false → (step s a r).state.saved = s.saved) ∧
    ((step s a r).done = true →
      (step s a r).state.saved = some (step s a r).state.high_score) ∧
    (∀ r2 : ResetRand,
      (reset s r2).high_score = s.high_score ∧ (reset s r2).saved = s.saved) := by
  unfold step
  rw [if_neg (by simp [h])]
  split
  · refine ⟨bumpHigh_eq_max s.score s.high_score, ?_, fun _ => rfl,
      fun r2 => ⟨rfl, rfl⟩⟩
    intro hc
    simp at hc
  · split
    · refine ⟨bumpHigh_eq_max s.score s.high_score, ?_, fun _ => rfl,
        fun r2 => ⟨rfl, rfl⟩⟩
      intro hc
      simp at hc
    · refine ⟨bumpHigh_eq_max (s.score + 1) s.high_score, fun _ => rfl, ?_,
        fun r2 => ⟨rfl, rfl⟩⟩
      intro hc
      simp at hc

/-- Witness for the amended C5 at a concrete state where the score
exceeds the high score. -/
theorem claim5_witness :
    (step hiState 0 rand0).state.high_score
      = max hiState.high_score (step hiState 0 rand0).state.score :=
  (claim5_high_score_amended hiState 0 rand0 rfl).1

/-- A running state whose spawn cooldown fires on the next step. -/
def spawnState : GameState :=
  { score := 0, game_over := false, game_speed := 1, bg_scroll_x := 0,
    spawn_cooldown := 1, player := { x := 95, y := 70, w := 10, h := 10 },
    obstacles := [], high_score := 0, saved := none }

/-- A legal draw spawning at the lowest allowed top (132) with the
largest height (14). -/
def tallRand : Rand :=
  { spawnY := 132, spawnXoff := 0, obsW := 8, obsH := 14, cooldownBase := 45 }

/-- Counterexample to C6 as stated: with the legal draws of tallRand the
step spawns exactly one obstacle whose rectangle does NOT lie vertically
within the play corridor: its top is 132 but its bottom is 146, below the
corridor bottom 140 (the spawn range only bounds the top, by
path_bottom - OBSTACLE_MIN_H, while the height may be up to 14). -/
theorem claim6_counterexample :
    tallRand.wf ∧
    (step spawnState 0 tallRand).state.obstacles
      = [{ x := 199, y := 132, w := 8, h := 14 }] ∧
    INTERNAL_H - PATH_MARGIN_BOTTOM <
      (Rect.mk 199 132 8 14).bottomEdge := by
  refine ⟨by decide, ?_, by decide⟩
  norm_num [step, spawnState, tallRand, movedCat, clampCat, catDelta, gsAfter,
    speedNorm, bumpHigh, spawnStep, spawnRect, moveObstacle, movedObstacles,
    pyRound, collideRect, scrollAfter, INTERNAL_W, INTERNAL_H, PATH_MARGIN_TOP,
    PATH_MARGIN_BOTTOM, GAME_SPEED_MIN, GAME_SPEED_MAX, WORLD_SPEED_GROWTH,
    OBSTACLE_BASE_SPEED, CAT_DRIFT_SPEED_X, CAT_ACCEL_SPEED_X,
    CAT_SPEED_PER_STEP, List.filterMap_cons, List.filterMap_nil]

/-- C6 amended: on every step on which the decremented spawn cooldown is
zero or below (and the step is not cut short by a left-edge crash),
exactly one new obstacle is appended before the frame movement; its spawn
x offset is 0..20 past the right edge and its TOP lies within
[PATH_MARGIN_TOP, corridor_bottom - OBSTACLE_MIN_H] (its bottom may
extend below the corridor); the cooldown is reset to
max 20 (floor(base / game_speed)), hence at least the floor of 20 frames
and inversely scaled with game_speed. -/
theorem claim6_spawn_amended (s : GameState) (a : Int) (r : Rand)
    (hrun : s.game_over = false) (hx : 0 < (movedCat s a).x)
    (hcd : s.spawn_cooldown - 1 ≤ 0) (hr : r.wf) :
    (step s a r).state.obstacles
      = (s.obstacles ++ [spawnRect r]).filterMap (moveObstacle (gsAfter s)) ∧
    (step s a r).state.spawn_cooldown
      = max 20 ⌊(r.cooldownBase : ℚ) / gsAfter s⌋ ∧
    20 ≤ (step s a r).state.spawn_cooldown ∧
    INTERNAL_W ≤ (spawnRect r).x ∧ (spawnRect r).x ≤ INTERNAL_W + 20 ∧
    PATH_MARGIN_TOP ≤ (spawnRect r).y ∧
    (spawnRect r).y ≤ INTERNAL_H - PATH_MARGIN_BOTTOM - OBSTACLE_MIN_H := by
  have hsp : spawnStep s.obstacles s.spawn_cooldown (gsAfter s) r
      = (s.obstacles ++ [spawnRect r], max 20 ⌊(r.cooldownBase : ℚ) / gsAfter s⌋) := by
    unfold spawnStep
    rw [if_pos hcd]
  obtain ⟨hr1, hr2, hr3, hr4, -⟩ := hr
  have hxb : INTERNAL_W ≤ (spawnRect r).x ∧ (spawnRect r).x ≤ INTERNAL_W + 20 := by
    constructor <;> simp only [spawnRect] <;> omega
  have hyb : PATH_MARGIN_TOP ≤ (spawnRect r).y ∧
      (spawnRect r).y ≤ INTERNAL_H - PATH_MARGIN_BOTTOM - OBSTACLE_MIN_H := by
    constructor <;> simp only [spawnRect]
    · exact hr1
    · simpa [PATH_MARGIN_TOP, INTERNAL_H, PATH_MARGIN_BOTTOM, OBSTACLE_MIN_H]
        using hr2
  unfold step
  rw [if_neg (by simp [hrun]), if_neg (by omega)]
  split
  · refine ⟨?_, ?_, ?_, hxb.1, hxb.2, hyb.1, hyb.2⟩
    · show movedObstacles s r = _
      unfold movedObstacles
      rw [hsp]
    · show (spawnStep s.obstacles s.spawn_cooldown (gsAfter s) r).2 = _
      rw [hsp]
    · show 20 ≤ (spawnStep s.obstacles s.spawn_cooldown (gsAfter s) r).2
      rw [hsp]
      exact le_max_left _ _
  · refine ⟨?_, ?_, ?_, hxb.1, hxb.2, hyb.1, hyb.2⟩
    · show movedObstacles s r = _
      unfold movedObstacles
      rw [hsp]
    · show (spawnStep s.obstacles s.spawn_cooldown (gsAfter s) r).2 = _
      rw [hsp]
    · show 20 ≤ (spawnStep s.obstacles s.spawn_cooldown (gsAfter s) r).2
      rw [hsp]
      exact le_max_left _ _

/-- Witness for the amended C6 at a concrete spawning step. -/
theorem claim6_witness :
    20 ≤ (step spawnState 0 tallRand).state.spawn_cooldown ∧
    INTERNAL_W ≤ (spawnRect tallRand).x :=
  ⟨(claim6_spawn_amended spawnState 0 tallRand rfl (by decide) (by decide)
      (by decide)).2.2.1,
   (claim6_spawn_amended spawnState 0 tallRand rfl (by decide) (by decide)
      (by decide)).2.2.2.1⟩

/-- C7: reset unconditionally re-enters the running state with score 0,
game_over false, minimum game speed, zero background scroll, a cooldown
drawn from [SPAWN_MIN, SPAWN_MAX], no obstacles, and the player rect
centered horizontally and vertically in the internal play area; it
returns the freshly computed state vector and has no error conditions. -/
theorem claim7_reset_spec (s : GameState) (r : ResetRand) (h : r.wf) :
    (reset s r).score = 0 ∧ (reset s r).game_over = false ∧
    (reset s r).game_speed = GAME_SPEED_MIN ∧
    (reset s r).bg_scroll_x = 0 ∧
    SPAWN_MIN ≤ (reset s r).spawn_cooldown ∧
    (reset s r).spawn_cooldown ≤ SPAWN_MAX ∧
    (reset s r).obstacles = [] ∧
    (reset s r).player
      = { x := INTERNAL_W / 2 - CAT_W / 2, y := INTERNAL_H / 2 - CAT_H / 2,
          w := CAT_W, h := CAT_H } ∧
    (reset s r).player.centerx = INTERNAL_W / 2 ∧
    (reset s r).player.centery = INTERNAL_H / 2 ∧
    resetReturn s r = gameStateVec (reset s r) := by
  refine ⟨rfl, rfl, rfl, rfl, h.1, h.2, rfl, rfl, ?_, ?_, rfl⟩ <;>
    norm_num [reset, Rect.centerx, Rect.centery, INTERNAL_W, INTERNAL_H,
      CAT_W, CAT_H]

/-- Witness for C7 at a concrete reset call. -/
theorem claim7_witness :
    (reset baseState resetRand0).score = 0 ∧
    (reset baseState resetRand0).game_over = false ∧
    (reset baseState resetRand0).player.centerx = INTERNAL_W / 2 :=
  ⟨(claim7_reset_spec baseState resetRand0 (by decide)).1,
   (claim7_reset_spec baseState resetRand0 (by decide)).2.1,
   (claim7_reset_spec baseState resetRand0 (by decide)).2.2.2.2.2.2.2.2.1⟩

/-- C8: any action value other than 1 (move-up), 2 (move-down) and
3 (accelerate) makes step behave exactly like the no-op action 0: same
successor state, same reward, same done flag, for the same draws. -/
theorem claim8_unrecognized_noop (s : GameState) (a : Int) (r : Rand)
    (h1 : a ≠ 1) (h2 : a ≠ 2) (h3 : a ≠ 3) :
    step s a r = step s 0 r := by
  have hd : catDelta a = catDelta 0 := by
    simp [catDelta, h1, h2, h3]
  have hm : movedCat s a = movedCat s 0 := by
    unfold movedCat
    rw [hd]
  unfold step
  rw [hm]

/-- Witness for C8 at the unrecognized action 7. -/
theorem claim8_witness : step baseState 7 rand0 = step baseState 0 rand0 :=
  claim8_unrecognized_noop baseState 7 rand0 (by decide) (by decide) (by decide)

/-- C10: a crash step is not atomic for that frame: game_speed has
already been updated (incremented, clamped at the maximum); for a
left-edge crash the obstacle set and the cooldown are untouched, while
for a collision crash the obstacles have already been advanced (and
possibly one spawned, with the cooldown reset); the score and the
cosmetic scroll offset are left unchanged by any terminal step. -/
theorem claim10_crash_frame_effects (s : GameState) (a : Int) (r : Rand)
    (hrun : s.game_over = false) (hdone : (step s a r).done = true) :
    (step s a r).state.game_speed = gsAfter s ∧
    (s.game_speed ≤ GAME_SPEED_MAX →
      s.game_speed ≤ (step s a r).state.game_speed) ∧
    (step s a r).state.score = s.score ∧
    (step s a r).state.bg_scroll_x = s.bg_scroll_x ∧
    ((movedCat s a).x ≤ 0 →
      (step s a r).state.obstacles = s.obstacles ∧
      (step s a r).state.spawn_cooldown = s.spawn_cooldown) ∧
    (0 < (movedCat s a).x →
      (step s a r).state.obstacles = movedObstacles s r ∧
      (step s a r).state.spawn_cooldown
        = (spawnStep s.obstacles s.spawn_cooldown (gsAfter s) r).2) := by
  unfold step at hdone ⊢
  rw [if_neg (by simp [hrun])] at hdone ⊢
  split_ifs at hdone ⊢ with hc1 hc2
  · exact ⟨rfl, fun hle => gsAfter_mono s hle, rfl, rfl,
      fun _ => ⟨rfl, rfl⟩, fun hgt => absurd hc1 (by omega)⟩
  · exact ⟨rfl, fun hle => gsAfter_mono s hle, rfl, rfl,
      fun hle => absurd hc1 (by omega), fun _ => ⟨rfl, rfl⟩⟩

/-- One no-op step from a running state with no obstacles, the player
strictly inside the horizontal range with room to drift, inside the
vertical corridor, and a cooldown that does not fire: the step survives
with reward 0.1, the score grows by exactly 1, the player drifts exactly
one pixel left, and no obstacle appears. -/
theorem step_noop_survive (s : GameState) (r : Rand)
    (hrun : s.game_over = false) (hobs : s.obstacles = [])
    (hx1 : 2 ≤ s.player.x) (hx2 : s.player.x ≤ 191)
    (hw : s.player.w = 10) (hh : s.player.h = 10)
    (hy1 : 40 ≤ s.player.y) (hy2 : s.player.y ≤ 130)
    (hcd : 2 ≤ s.spawn_cooldown) :
    (step s 0 r).done = false ∧ (step s 0 r).reward = SURVIVE_REWARD ∧
    (step s 0 r).state.game_over = false ∧
    (step s 0 r).state.obstacles = [] ∧
    (step s 0 r).state.player.x = s.player.x - 1 ∧
    (step s 0 r).state.player.y = s.player.y ∧
    (step s 0 r).state.player.w = 10 ∧
    (step s 0 r).state.player.h = 10 ∧
    (step s 0 r).state.score = s.score + 1 ∧
    (step s 0 r).state.spawn_cooldown = s.spawn_cooldown - 1 := by
  have hmx : (movedCat s 0).x = s.player.x - 1 := by
    unfold movedCat clampCat catDelta
    norm_num [CAT_DRIFT_SPEED_X, INTERNAL_W]
    split_ifs <;> omega
  have hmy : (movedCat s 0).y = s.player.y := by
    unfold movedCat clampCat catDelta
    norm_num [CAT_DRIFT_SPEED_X, INTERNAL_H, PATH_MARGIN_TOP, PATH_MARGIN_BOTTOM]
    split_ifs <;> omega
  have hmw : (movedCat s 0).w = s.player.w := rfl
  have hmh : (movedCat s 0).h = s.player.h := rfl
  have hnc : ¬ (movedCat s 0).x ≤ 0 := by
    rw [hmx]
    omega
  have hsp : spawnStep s.obstacles s.spawn_cooldown (gsAfter s) r
      = (s.obstacles, s.spawn_cooldown - 1) := by
    unfold spawnStep
    rw [if_neg (by omega)]
  have hmo : movedObstacles s r = [] := by
    unfold movedObstacles
    rw [hsp, hobs]
    rfl
  unfold step
  rw [if_neg (by simp [hrun]), if_neg hnc, if_neg (by rw [hmo]; simp)]
  exact ⟨rfl, rfl, hrun, hmo, hmx, hmy, hmw.trans hw, hmh.trans hh, rfl,
    by rw [hsp]⟩

/-- One no-op step from a running state whose player is one pixel from
the left edge: the drift reaches x = 0, the left-edge check fires and the
step returns done=true with the crash penalty, leaving the score, the
obstacles and the cooldown of that frame untouched. -/
theorem step_noop_crash (s : GameState) (r : Rand)
    (hrun : s.game_over = false) (hx : s.player.x = 1) (hw : s.player.w = 10) :
    (step s 0 r).done = true ∧ (step s 0 r).reward = CRASH_PENALTY ∧
    (step s 0 r).state.game_over = true ∧
    (step s 0 r).state.score = s.score ∧
    (step s 0 r).state.obstacles = s.obstacles ∧
    (step s 0 r).state.spawn_cooldown = s.spawn_cooldown ∧
    (step s 0 r).state.player.x = 0 := by
  have hmx : (movedCat s 0).x = 0 := by
    unfold movedCat clampCat catDelta
    norm_num [CAT_DRIFT_SPEED_X, INTERNAL_W]
    split_ifs <;> omega
  unfold step
  rw [if_neg (by simp [hrun]), if_pos (by rw [hmx])]
  exact ⟨rfl, rfl, rfl, rfl, rfl, rfl, hmx⟩

/-- C9: from a running state with no obstacles, player p pixels from the
left edge (1 <= p <= 190) inside the corridor, and a spawn cooldown of at
least p frames (so no obstacle appears before the edge is reached),
repeated no-op steps survive with the score growing by exactly 1 per call
while the drift moves the player one pixel left per frame, and the p-th
call — the first on which the clamped left edge reaches x <= 0 — returns
done=true with the crash penalty, leaving the score, obstacle set and
cooldown of that frame unchanged. -/
theorem claim9_drift_to_left_edge (s : GameState) (rands : Nat → Rand)
    (p : Int)
    (hrun : s.game_over = false) (hobs : s.obstacles = [])
    (hpx : s.player.x = p) (hp1 : 1 ≤ p) (hp2 : p ≤ 190)
    (hw : s.player.w = 10) (hh : s.player.h = 10)
    (hy1 : 40 ≤ s.player.y) (hy2 : s.player.y ≤ 130)
    (hcd : p ≤ s.spawn_cooldown) :
    (∀ k : Nat, (k : Int) < p →
      (noopIter rands s k).game_over = false ∧
      (noopIter rands s k).score = s.score + k ∧
      (noopIter rands s k).player.x = p - k ∧
      (noopIter rands s k).obstacles = []) ∧
    (∀ k : Nat, (k : Int) + 1 < p →
      (step (noopIter rands s k) 0 (rands k)).reward = SURVIVE_REWARD ∧
      (step (noopIter rands s k) 0 (rands k)).done = false) ∧
    (∀ k : Nat, (k : Int) = p - 1 →
      (step (noopIter rands s k) 0 (rands k)).done = true ∧
      (step (noopIter rands s k) 0 (rands k)).reward = CRASH_PENALTY ∧
      (step (noopIter rands s k) 0 (rands k)).state.score = s.score + k ∧
      (step (noopIter rands s k) 0 (rands k)).state.obstacles = [] ∧
      (step (noopIter rands s k) 0 (rands k)).state.spawn_cooldown
        = (noopIter rands s k).spawn_cooldown ∧
      (step (noopIter rands s k) 0 (rands k)).state.player.x = 0) := by
  have key : ∀ k : Nat, (k : Int) ≤ p - 1 →
      (noopIter rands s k).game_over = false ∧
      (noopIter rands s k).obstacles = [] ∧
      (noopIter rands s k).player.x = p - k ∧
      (noopIter rands s k).player.y = s.player.y ∧
      (noopIter rands s k).player.w = 10 ∧
      (noopIter rands s k).player.h = 10 ∧
      (noopIter rands s k).score = s.score + k ∧
      (noopIter rands s k).spawn_cooldown = s.spawn_cooldown - k := by
    intro k
    induction k with
    | zero =>
      intro _
      exact ⟨hrun, hobs, by simpa using hpx, rfl, hw, hh,
        by simp [noopIter], by simp [noopIter]⟩
    | succ k ih =>
      intro hk1
      have hkc : ((k + 1 : Nat) : Int) = (k : Int) + 1 := by push_cast; ring
      have hk : (k : Int) ≤ p - 1 := by
        rw [hkc] at hk1
        omega
      obtain ⟨g1, g2, g3, g4, g5, g6, g7, g8⟩ := ih hk
      have hks : (k : Int) + 1 ≤ p - 1 := by
        rw [hkc] at hk1
        exact hk1
      have hsv := step_noop_survive (noopIter rands s k) (rands k) g1 g2
        (by rw [g3]; omega) (by rw [g3]; omega) g5 g6
        (by rw [g4]; exact hy1) (by rw [g4]; exact hy2)
        (by rw [g8]; omega)
      obtain ⟨-, -, d3, d4, d5, d6, d7, d8, d9, d10⟩ := hsv
      refine ⟨d3, d4, ?_, by rw [show noopIter rands s (k + 1)
          = (step (noopIter rands s k) 0 (rands k)).state from rfl, d6, g4],
        d7, d8, ?_, ?_⟩
      · show (step (noopIter rands s k) 0 (rands k)).state.player.x = _
        rw [d5, g3, hkc]
        ring
      · show (step (noopIter rands s k) 0 (rands k)).state.score = _
        rw [d9, g7]
        omega
      · show (step (noopIter rands s k) 0 (rands k)).state.spawn_cooldown = _
        rw [d10, g8, hkc]
        ring
  refine ⟨?_, ?_, ?_⟩
  · intro k hk
    obtain ⟨g1, g2, g3, -, -, -, g7, -⟩ := key k (by omega)
    exact ⟨g1, g7, g3, g2⟩
  · intro k hk
    obtain ⟨g1, g2, g3, g4, g5, g6, -, g8⟩ := key k (by omega)
    have hsv := step_noop_survive (noopIter rands s k) (rands k) g1 g2
      (by rw [g3]; omega) (by rw [g3]; omega) g5 g6
      (by rw [g4]; exact hy1) (by rw [g4]; exact hy2)
      (by rw [g8]; omega)
    exact ⟨hsv.2.1, hsv.1⟩
  · intro k hk
    obtain ⟨g1, g2, g3, -, g5, -, g7, g8⟩ := key k (by omega)
    have hcr := step_noop_crash (noopIter rands s k) (rands k) g1
      (by rw [g3, hk]; ring) g5
    refine ⟨hcr.1, hcr.2.1, ?_, ?_, hcr.2.2.2.2.2.1, hcr.2.2.2.2.2.2⟩
    · rw [hcr.2.2.2.1, g7]
    · rw [hcr.2.2.2.2.1, g2]

/-- The drift scenario start state: player two pixels from the left
edge, no obstacles, cooldown far from firing. -/
def drift2State : GameState :=
  { score := 0, game_over := false, game_speed := 1, bg_scroll_x := 0,
    spawn_cooldown := 50, player := { x := 2, y := 70, w := 10, h := 10 },
    obstacles := [], high_score := 0, saved := none }

/-- Witness for C9: from drift2State the second no-op call is the
left-edge crash with the score having grown by 1 on the first call. -/
theorem claim9_witness :
    (step (noopIter (fun _ => rand0) drift2State 1) 0 rand0).done = true ∧
    (step (noopIter (fun _ => rand0) drift2State 1) 0 rand0).reward
      = CRASH_PENALTY ∧
    (step (noopIter (fun _ => rand0) drift2State 1) 0 rand0).state.score
      = drift2State.score + 1 ∧
    (step (noopIter (fun _ => rand0) drift2State 1) 0 rand0).state.obstacles
      = [] ∧
    (step (noopIter (fun _ => rand0) drift2State 1) 0 rand0).state.spawn_cooldown
      = (noopIter (fun _ => rand0) drift2State 1).spawn_cooldown ∧
    (step (noopIter (fun _ => rand0) drift2State 1) 0 rand0).state.player.x
      = 0 := by
  have h := claim9_drift_to_left_edge drift2State (fun _ => rand0) 2
    rfl rfl rfl (by norm_num) (by norm_num) rfl rfl
    (by norm_num [drift2State]) (by norm_num [drift2State])
    (by norm_num [drift2State])
  simpa using h.2.2 1 (by norm_num)

/-- A running state one pixel from the left edge: the next no-op step is
a left-edge crash. -/
def edgeState : GameState :=
  { score := 0, game_over := false, game_speed := 1, bg_scroll_x := 0,
    spawn_cooldown := 50, player := { x := 1, y := 70, w := 10, h := 10 },
    obstacles := [], high_score := 0, saved := none }

/-- Witness for C10 at a concrete left-edge crash step. -/
theorem claim10_witness :
    (step edgeState 0 rand0).state.score = edgeState.score ∧
    (step edgeState 0 rand0).state.obstacles = edgeState.obstacles :=
  ⟨(claim10_crash_frame_effects edgeState 0 rand0 rfl (by decide)).2.2.1,
   ((claim10_crash_frame_effects edgeState 0 rand0 rfl (by decide)).2.2.2.2.1
      (by decide)).1⟩

end HalloweenRun
